import Mathlib

/-!
Shallow embedding of `pkg/auth/oauth/handlers/grant.go` (the grant-authorization
decision layer of an OAuth2 authorization server).  Side effects are made
explicit: the HTTP response writer becomes a write log threaded through every
operation, and mutation of the `osin.AuthorizeRequest` becomes explicit state
passing.  The pluggable collaborators (GrantChecker, GrantHandler,
GrantErrorHandler) become function values, so that theorems can quantify over
arbitrary configurations.
-/

namespace Origin

/-- A Go `error` value, modelled by its message string. -/
structure GoError where
  msg : String
deriving DecidableEq, Repr

/-- Embedding of `user.Info` from k8s: the user identity capability needed by the grant check.
Only identity fields are relevant here. -/
structure UserInfo where
  name : String
  uid : String
  groups : List String
deriving DecidableEq, Repr

/-- The dynamically typed `UserData` slot of an `osin.AuthorizeRequest`:
either a value satisfying `user.Info`, or anything else (including nil),
which fails the runtime type assertion in `HandleAuthorize`. -/
inductive UserData where
  | info (u : UserInfo)
  | invalid
deriving DecidableEq, Repr

/-- Embedding of `oauthapi.OAuthClient`: the registered-client record carried in the osin
client user data; only `GrantMethod` is read by this subsystem. -/
structure OAuthClient where
  grantMethod : String
deriving DecidableEq, Repr

/-- The dynamically typed `GetUserData()` payload of an osin client: either a
`*oauthapi.OAuthClient`, or anything else, which fails the type assertion in
`perClientGrant.GrantNeeded`. -/
inductive ClientUserData where
  | oauthClient (c : OAuthClient)
  | other
deriving DecidableEq, Repr

/-- An `osin.Client`: `GetId()` and `GetUserData()` become fields. -/
structure Client where
  id : String
  userData : ClientUserData
deriving DecidableEq, Repr

/-- The part of an `*http.Request` read by this subsystem: `req.URL.String()`. -/
structure HttpRequest where
  url : String
deriving DecidableEq, Repr

/-- An observable write to the `http.ResponseWriter`.  The only write this
subsystem itself performs is `http.Redirect(w, req, url, http.StatusFound)`. -/
inductive HttpWrite where
  | redirect (status : Nat) (location : String)
deriving DecidableEq, Repr

/-- The response writer, modelled as the log of writes made to it. -/
abbrev Response := List HttpWrite

/-- Embedding of `api.Grant`: immutable snapshot of one authorization attempt. -/
structure Grant where
  client : Client
  scope : String
  expiration : Int
  redirectURI : String
deriving DecidableEq, Repr

/-- The fields of `osin.AuthorizeRequest` read or written by `HandleAuthorize`. -/
structure AuthorizeRequest where
  authorized : Bool
  userData : UserData
  client : Client
  scope : String
  expiration : Int
  redirectUri : String
  httpRequest : HttpRequest
deriving DecidableEq, Repr

/-- Result of `GrantHandler.GrantNeeded`: `(authorized, handled, err)` plus the
response log after the call. -/
structure GrantResult where
  authorized : Bool
  handled : Bool
  err : Option GoError
  w : Response
deriving DecidableEq, Repr

/-- Result of `GrantErrorHandler.GrantError`: `(handled, err)` plus the
response log after the call. -/
structure GrantErrorResult where
  handled : Bool
  err : Option GoError
  w : Response
deriving DecidableEq, Repr

/-- The `GrantHandler` interface as a pure function. -/
abbrev GrantHandler := UserInfo → Grant → Response → HttpRequest → GrantResult

/-- The `GrantChecker` interface (`HasAuthorizedClient`) as a pure function
returning `(bool, error)`. -/
abbrev GrantChecker := UserInfo → Grant → Bool × Option GoError

/-- The `GrantErrorHandler` interface (`GrantError`) as a pure function. -/
abbrev GrantErrorHandler := GoError → Response → HttpRequest → GrantErrorResult

/-- Embedding of `GrantCheck`: the orchestrator composing checker, handler and error handler. -/
structure GrantCheck where
  check : GrantChecker
  handler : GrantHandler
  errorHandler : GrantErrorHandler

/-- Embedding of `NewGrantCheck`. -/
def NewGrantCheck (check : GrantChecker) (handler : GrantHandler)
    (errorHandler : GrantErrorHandler) : GrantCheck :=
  ⟨check, handler, errorHandler⟩

/-- The `api.Grant` constructed by `HandleAuthorize` from the request fields
(`int64(ar.Expiration)` is the identity in our integer model). -/
def grantOf (ar : AuthorizeRequest) : Grant :=
  ⟨ar.client, ar.scope, ar.expiration, ar.redirectUri⟩

/-- The error built by `errors.New("the provided user data is not user.Info")`. -/
def userDataError : GoError := ⟨"the provided user data is not user.Info"⟩

/-- Result of `GrantCheck.HandleAuthorize`: `(handled, err)` plus the final
request state and response log. -/
structure HandleResult where
  handled : Bool
  err : Option GoError
  ar : AuthorizeRequest
  w : Response
deriving DecidableEq, Repr

/-- Embedding of `GrantCheck.HandleAuthorize`, translated statement by statement from
`grant.go` lines 35-73.  Mutation of `ar.Authorized` is explicit state
passing; every `return` carries the current request state and response log. -/
def GrantCheck.HandleAuthorize (h : GrantCheck) (ar : AuthorizeRequest)
    (w : Response) : HandleResult :=
  -- if !ar.Authorized { return false, nil }
  if ar.authorized = false then ⟨false, none, ar, w⟩
  else
    -- ar.Authorized = false
    let ar1 := { ar with authorized := false }
    -- user, ok := ar.UserData.(user.Info); if !ok || user == nil { ... }
    match ar1.userData with
    | UserData.invalid =>
      let r := h.errorHandler userDataError w ar1.httpRequest
      ⟨r.handled, r.err, ar1, r.w⟩
    | UserData.info u =>
      let grant := grantOf ar1
      -- authorized, err := h.check.HasAuthorizedClient(user, grant)
      let res := h.check u grant
      match res.2 with
      | some e =>
        let r := h.errorHandler e w ar1.httpRequest
        ⟨r.handled, r.err, ar1, r.w⟩
      | none =>
        if res.1 then
          -- ar.Authorized = true; return false, nil
          ⟨false, none, { ar1 with authorized := true }, w⟩
        else
          -- authorized, handled, err := h.handler.GrantNeeded(...)
          let r := h.handler u grant w ar1.httpRequest
          let ar2 := if r.authorized then { ar1 with authorized := true } else ar1
          ⟨r.handled, r.err, ar2, r.w⟩

/-- Embedding of `emptyGrant.GrantNeeded`: always `(false, false, nil)`, writes nothing. -/
def emptyGrant.GrantNeeded : GrantHandler :=
  fun _ _ w _ => ⟨false, false, none, w⟩

/-- Embedding of `autoGrant.GrantNeeded`: always `(true, false, nil)`, writes nothing. -/
def autoGrant.GrantNeeded : GrantHandler :=
  fun _ _ w _ => ⟨true, false, none, w⟩

/-- Modelled from Go `net/url`: `url.Parse` fails exactly when the string
contains an ASCII control character, returning the stdlib error message;
otherwise the parsed URL is kept as its string form (the configured base URLs
of this subsystem carry no query or fragment of their own). -/
def urlParse (s : String) : Except GoError String :=
  if s.toList.any (fun c => c.toNat < 32 || c.toNat = 127) then
    Except.error ⟨"parse " ++ s ++ ": net/url: invalid control character in URL"⟩
  else Except.ok s

/-- Hex digit used by Go percent-encoding (upper case). -/
def hexDigit (n : Nat) : Char :=
  if n < 10 then Char.ofNat (48 + n) else Char.ofNat (65 + (n - 10))

/-- A byte Go `url.QueryEscape` leaves unescaped: ALPHA / DIGIT / - _ . ~ -/
def isUnreservedQueryByte (c : Char) : Bool :=
  (97 ≤ c.toNat && c.toNat ≤ 122) || (65 ≤ c.toNat && c.toNat ≤ 90) ||
  (48 ≤ c.toNat && c.toNat ≤ 57) || c = '-' || c = '_' || c = '.' || c = '~'

/-- Modelled from Go `net/url`: `url.QueryEscape` on ASCII strings — space
becomes `+`, unreserved bytes stay, everything else becomes `%XX`. -/
def queryEscape (s : String) : String :=
  String.mk (s.toList.flatMap (fun c =>
    if isUnreservedQueryByte c then [c]
    else if c = ' ' then ['+']
    else ['%', hexDigit (c.toNat / 16), hexDigit (c.toNat % 16)]))

/-- Modelled from Go `net/url`: `url.Values.Encode()` for the four parameters
set by `redirectGrant.GrantNeeded`.  `Encode` emits keys in sorted order:
`client_id < redirect_uri < scopes < then`. -/
def encodeGrantQuery (thenURL clientId scopes redirectUri : String) : String :=
  "client_id=" ++ queryEscape clientId ++
  "&redirect_uri=" ++ queryEscape redirectUri ++
  "&scopes=" ++ queryEscape scopes ++
  "&then=" ++ queryEscape thenURL

/-- Embedding of `redirectGrant.GrantNeeded`: parse the configured base URL, attach the
four-parameter query, 302-redirect to the result.  The handler state (the
configured URL string) is the first argument. -/
def redirectGrant.GrantNeeded (url : String) : GrantHandler :=
  fun _ grant w req =>
    match urlParse url with
    | Except.error e => ⟨false, false, some e, w⟩
    | Except.ok base =>
      let q := encodeGrantQuery req.url grant.client.id grant.scope grant.redirectURI
      ⟨false, true, none, w ++ [HttpWrite.redirect 302 (base ++ "?" ++ q)]⟩

/-- Modelled from the spec: the `GrantHandlerType` enumeration value `auto`
(`oauthapi.GrantHandlerAuto`, defined in `pkg/oauth/api`, not under src/). -/
def GrantHandlerAuto : String := "auto"

/-- Modelled from the spec: the `GrantHandlerType` enumeration value `prompt`
(`oauthapi.GrantHandlerPrompt`, defined in `pkg/oauth/api`, not under src/). -/
def GrantHandlerPrompt : String := "prompt"

/-- Modelled from the spec: the `GrantHandlerType` enumeration value `deny`
(`oauthapi.GrantHandlerDeny`, defined in `pkg/oauth/api`, not under src/). -/
def GrantHandlerDeny : String := "deny"

/-- The `perClientGrant` handler state: three sub-handlers plus the configured
default grant method. -/
structure perClientGrant where
  auto : GrantHandler
  prompt : GrantHandler
  deny : GrantHandler
  defaultMethod : String

/-- Embedding of `NewPerClientGrant`: auto is the Auto variant, deny is the Empty variant,
prompt is caller-supplied. -/
def NewPerClientGrant (prompt : GrantHandler) (defaultMethod : String) :
    perClientGrant :=
  ⟨autoGrant.GrantNeeded, prompt, emptyGrant.GrantNeeded, defaultMethod⟩

/-- The error message built by
`fmt.Errorf("OAuth client grant method %q unrecognized", method)`;
`%q` wraps the (plain) method string in double quotes. -/
def unrecognizedMethodMsg (method : String) : String :=
  "OAuth client grant method \"" ++ method ++ "\" unrecognized"

/-- Embedding of `perClientGrant.GrantNeeded`: read the client record from the client user data
of the grant, resolve the grant method (the one of the client, or the default
when empty), and dispatch. -/
def perClientGrant.GrantNeeded (g : perClientGrant) : GrantHandler :=
  fun u grant w req =>
    match grant.client.userData with
    | ClientUserData.other =>
      ⟨false, false, some ⟨"unrecognized OAuth client type"⟩, w⟩
    | ClientUserData.oauthClient c =>
      let method := if c.grantMethod.length = 0 then g.defaultMethod
                    else c.grantMethod
      if method = GrantHandlerAuto then g.auto u grant w req
      else if method = GrantHandlerPrompt then g.prompt u grant w req
      else if method = GrantHandlerDeny then g.deny u grant w req
      else ⟨false, false, some ⟨unrecognizedMethodMsg method⟩, w⟩

/-! Concrete values used by witness and counterexample theorems. -/

/-- A concrete user identity. -/
def exUser : UserInfo := ⟨"alice", "uid1", ["dev"]⟩

/-- A concrete recognized OAuth client with grant method `auto`. -/
def exClient : Client := ⟨"abc", ClientUserData.oauthClient ⟨"auto"⟩⟩

/-- A concrete inbound HTTP request. -/
def exReq : HttpRequest := ⟨"https://as.example/authorize?x=1"⟩

/-- A concrete authorize request, already authorized on entry. -/
def exAr : AuthorizeRequest :=
  ⟨true, UserData.info exUser, exClient, "read write", 3600,
   "https://app.example/cb", exReq⟩

/-- A checker that always reports a prior authorization. -/
def trueChecker : GrantChecker := fun _ _ => (true, none)

/-- A checker that always reports no prior authorization. -/
def falseChecker : GrantChecker := fun _ _ => (false, none)

/-- A checker that always fails with a store error. -/
def errChecker : GrantChecker := fun _ _ => (false, some ⟨"store timeout"⟩)

/-- An error handler that reports the error it is given and marks it handled. -/
def exErrorHandler : GrantErrorHandler := fun e w _ => ⟨true, some e, w⟩

/-- An error handler that swallows every error, reporting `(true, nil)`. -/
def swallowErrorHandler : GrantErrorHandler := fun _ w _ => ⟨true, none, w⟩

/-! Theorems about the claims. -/

/-- C7: for every request with `authorized = false` on entry, `HandleAuthorize`
is a no-op for every configuration: it returns `(false, nil)`, leaves the
request (hence `Authorized = false`) and the response untouched, and — since
the result does not depend on the checker, handler or error handler — calls
none of them. -/
theorem handleAuthorize_noop_unauthorized (h : GrantCheck) (ar : AuthorizeRequest)
    (w : Response) (hA : ar.authorized = false) :
    h.HandleAuthorize ar w = ⟨false, none, ar, w⟩ := by
  simp [GrantCheck.HandleAuthorize, hA]

/-- Witness for C7 at a concrete unauthorized request. -/
theorem handleAuthorize_noop_unauthorized_witness :
    (NewGrantCheck trueChecker emptyGrant.GrantNeeded exErrorHandler).HandleAuthorize
        { exAr with authorized := false } [] =
      ⟨false, none, { exAr with authorized := false }, []⟩ :=
  handleAuthorize_noop_unauthorized _ { exAr with authorized := false } [] rfl

/-- C2: for every request authorized on entry with a valid user identity, when
the checker reports a prior authorization `(true, nil)` for the constructed
grant, `HandleAuthorize` returns `(false, nil)`, leaves `Authorized = true`
and writes nothing, for every configured handler (the handler does not occur
in the result). -/
theorem handleAuthorize_checker_hit (h : GrantCheck) (ar : AuthorizeRequest)
    (w : Response) (u : UserInfo) (hA : ar.authorized = true)
    (hU : ar.userData = UserData.info u)
    (hC : h.check u (grantOf ar) = (true, none)) :
    h.HandleAuthorize ar w = ⟨false, none, { ar with authorized := true }, w⟩ := by
  simp [GrantCheck.HandleAuthorize, grantOf, hA, hU] at *
  simp [hC]

/-- Witness for C2 at a concrete request and checker. -/
theorem handleAuthorize_checker_hit_witness :
    (NewGrantCheck trueChecker emptyGrant.GrantNeeded exErrorHandler).HandleAuthorize
        exAr [] = ⟨false, none, { exAr with authorized := true }, []⟩ :=
  handleAuthorize_checker_hit _ exAr [] exUser rfl rfl rfl

/-- C6: for every request authorized on entry with a valid user identity and a
checker reporting no prior authorization `(false, nil)`: with the Auto handler
the step ends with `Authorized = true` and returns `(false, nil)`; with the
Empty handler it ends with `Authorized = false` and returns `(false, nil)`;
neither writes to the response (the response log stays `w`). -/
theorem handleAuthorize_auto_empty_outcomes (check : GrantChecker)
    (eh : GrantErrorHandler) (ar : AuthorizeRequest) (w : Response) (u : UserInfo)
    (hA : ar.authorized = true) (hU : ar.userData = UserData.info u)
    (hC : check u (grantOf ar) = (false, none)) :
    (NewGrantCheck check autoGrant.GrantNeeded eh).HandleAuthorize ar w =
      ⟨false, none, { ar with authorized := true }, w⟩ ∧
    (NewGrantCheck check emptyGrant.GrantNeeded eh).HandleAuthorize ar w =
      ⟨false, none, { ar with authorized := false }, w⟩ := by
  constructor <;>
    · simp [GrantCheck.HandleAuthorize, NewGrantCheck, grantOf, hA, hU,
        autoGrant.GrantNeeded, emptyGrant.GrantNeeded] at *
      simp [hC]

/-- Witness for C6 at a concrete request and checker. -/
theorem handleAuthorize_auto_empty_outcomes_witness :
    (NewGrantCheck falseChecker autoGrant.GrantNeeded exErrorHandler).HandleAuthorize
        exAr [] = ⟨false, none, { exAr with authorized := true }, []⟩ ∧
    (NewGrantCheck falseChecker emptyGrant.GrantNeeded exErrorHandler).HandleAuthorize
        exAr [] = ⟨false, none, { exAr with authorized := false }, []⟩ :=
  handleAuthorize_auto_empty_outcomes falseChecker exErrorHandler exAr [] exUser
    rfl rfl rfl

/-- C8: for every request authorized on entry with a valid user identity, when
the checker returns a non-nil error, `HandleAuthorize` returns exactly the
`(handled, err)` pair (and response log) that `GrantErrorHandler.GrantError`
produces for that error; the result does not mention the configured handler,
so it holds for every handler configuration and the handler is not invoked. -/
theorem handleAuthorize_checker_error (h : GrantCheck) (ar : AuthorizeRequest)
    (w : Response) (u : UserInfo) (b : Bool) (e : GoError)
    (hA : ar.authorized = true) (hU : ar.userData = UserData.info u)
    (hC : h.check u (grantOf ar) = (b, some e)) :
    h.HandleAuthorize ar w =
      ⟨(h.errorHandler e w ar.httpRequest).handled,
       (h.errorHandler e w ar.httpRequest).err,
       { ar with authorized := false },
       (h.errorHandler e w ar.httpRequest).w⟩ := by
  simp [GrantCheck.HandleAuthorize, grantOf, hA, hU] at *
  simp [hC]

/-- Witness for C8 at a concrete request, failing checker and error handler. -/
theorem handleAuthorize_checker_error_witness :
    (NewGrantCheck errChecker autoGrant.GrantNeeded exErrorHandler).HandleAuthorize
        exAr [] =
      ⟨true, some ⟨"store timeout"⟩, { exAr with authorized := false }, []⟩ :=
  handleAuthorize_checker_error
    (NewGrantCheck errChecker autoGrant.GrantNeeded exErrorHandler)
    exAr [] exUser false ⟨"store timeout"⟩ rfl rfl rfl

/-- C1: fail-closed invariant of `HandleAuthorize`.  For every configuration
and every request authorized on entry, the exit value of `Authorized` is true
exactly when the user identity is valid and either the checker reported a
prior authorization `(true, nil)`, or the checker reported `(false, nil)` and
the handler returned `authorized = true`; on every other path — invalid user
data, checker error, handler denial — `Authorized` is false on exit. -/
theorem handleAuthorize_fail_closed (h : GrantCheck) (ar : AuthorizeRequest)
    (w : Response) (hA : ar.authorized = true) :
    ((h.HandleAuthorize ar w).ar.authorized = true ↔
      ∃ u, ar.userData = UserData.info u ∧
        (h.check u (grantOf ar) = (true, none) ∨
          (h.check u (grantOf ar) = (false, none) ∧
            (h.handler u (grantOf ar) w ar.httpRequest).authorized = true))) := by
  cases hu : ar.userData with
  | invalid => simp [GrantCheck.HandleAuthorize, hA, hu]
  | info u =>
    cases hc : h.check u (grantOf ar) with
    | mk b oe =>
      simp only [grantOf] at hc
      cases oe with
      | some e =>
        simp [GrantCheck.HandleAuthorize, hA, hu, grantOf, hc]
      | none =>
        cases b with
        | true => simp [GrantCheck.HandleAuthorize, hA, hu, grantOf, hc]
        | false =>
          cases hh : (h.handler u (grantOf ar) w ar.httpRequest).authorized <;>
            · simp only [grantOf] at hh
              simp [GrantCheck.HandleAuthorize, hA, hu, grantOf, hc, hh]

/-- Witness for C1 at a concrete configuration where the checker hits. -/
theorem handleAuthorize_fail_closed_witness :
    ((NewGrantCheck trueChecker emptyGrant.GrantNeeded exErrorHandler).HandleAuthorize
        exAr []).ar.authorized = true :=
  (handleAuthorize_fail_closed
      (NewGrantCheck trueChecker emptyGrant.GrantNeeded exErrorHandler)
      exAr [] rfl).mpr ⟨exUser, rfl, Or.inl rfl⟩

/-- An authorized request whose client record is not an `OAuthClient`. -/
def badClientAr : AuthorizeRequest :=
  ⟨true, UserData.info exUser, ⟨"abc", ClientUserData.other⟩, "read", 0,
   "https://app.example/cb", exReq⟩

/-- A grant check built from the PerClient handler and the swallowing error
handler. -/
def perClientCheck : GrantCheck :=
  NewGrantCheck falseChecker
    (perClientGrant.GrantNeeded
      (NewPerClientGrant emptyGrant.GrantNeeded GrantHandlerPrompt))
    swallowErrorHandler

/-- C3 counterexample: with an error handler turning every error into
`(true, nil)` and the PerClient handler given a malformed client record, the
decision step returns `(false, some err)` — the handler error reaches the
caller directly, while `GrantErrorHandler` on that very error produces
`(true, none)`.  So not every error passes through `GrantErrorHandler`. -/
theorem handleAuthorize_error_routing_counterexample :
    (perClientCheck.HandleAuthorize badClientAr []).handled = false ∧
    (perClientCheck.HandleAuthorize badClientAr []).err =
      some ⟨"unrecognized OAuth client type"⟩ ∧
    swallowErrorHandler ⟨"unrecognized OAuth client type"⟩ []
        badClientAr.httpRequest = ⟨true, none, []⟩ :=
  ⟨rfl, rfl, rfl⟩

/-- C3 (amended): errors from identity extraction and from the checker are
handed to `GrantErrorHandler` and the step returns exactly its output; errors
produced by the `GrantHandler` (malformed client record, redirect
configuration error, unrecognized policy) are returned to the caller
verbatim, without passing through `GrantErrorHandler`. -/
theorem handleAuthorize_error_routing (h : GrantCheck) (ar : AuthorizeRequest)
    (w : Response) (hA : ar.authorized = true) :
    (ar.userData = UserData.invalid →
      h.HandleAuthorize ar w =
        ⟨(h.errorHandler userDataError w ar.httpRequest).handled,
         (h.errorHandler userDataError w ar.httpRequest).err,
         { ar with authorized := false },
         (h.errorHandler userDataError w ar.httpRequest).w⟩) ∧
    (∀ u b e, ar.userData = UserData.info u →
      h.check u (grantOf ar) = (b, some e) →
      h.HandleAuthorize ar w =
        ⟨(h.errorHandler e w ar.httpRequest).handled,
         (h.errorHandler e w ar.httpRequest).err,
         { ar with authorized := false },
         (h.errorHandler e w ar.httpRequest).w⟩) ∧
    (∀ u, ar.userData = UserData.info u →
      h.check u (grantOf ar) = (false, none) →
      (h.HandleAuthorize ar w).handled =
        (h.handler u (grantOf ar) w ar.httpRequest).handled ∧
      (h.HandleAuthorize ar w).err =
        (h.handler u (grantOf ar) w ar.httpRequest).err) := by
  refine ⟨?_, ?_, ?_⟩
  · intro hu
    simp [GrantCheck.HandleAuthorize, hA, hu]
  · intro u b e hu hc
    simp only [grantOf] at hc
    simp [GrantCheck.HandleAuthorize, hA, hu, grantOf, hc]
  · intro u hu hc
    simp only [grantOf] at hc
    simp [GrantCheck.HandleAuthorize, hA, hu, grantOf, hc]

/-- Witness for C3 (amended) at the concrete PerClient configuration: the
handler error comes back verbatim. -/
theorem handleAuthorize_error_routing_witness :
    (perClientCheck.HandleAuthorize badClientAr []).handled =
      (perClientCheck.handler exUser (grantOf badClientAr) []
        badClientAr.httpRequest).handled ∧
    (perClientCheck.HandleAuthorize badClientAr []).err =
      (perClientCheck.handler exUser (grantOf badClientAr) []
        badClientAr.httpRequest).err :=
  (handleAuthorize_error_routing perClientCheck badClientAr [] rfl).2.2
    exUser rfl rfl

/-- C9: determinism and absence of hidden mutation.  With the embedded pure
(stateless) checker and handler, two calls of `HandleAuthorize` on the same
request state and response log yield the same result — in particular the same
`(handled, err)` pair and the same final `Authorized` — and the step mutates
no request field other than `authorized`: client record, scope, expiration,
redirect URI, user data and HTTP request are unchanged, so the grant snapshot
rebuilt from the resulting request equals the original one. -/
theorem handleAuthorize_deterministic_nonmutating (h : GrantCheck)
    (ar : AuthorizeRequest) (w : Response) :
    h.HandleAuthorize ar w = h.HandleAuthorize ar w ∧
    (h.HandleAuthorize ar w).ar.userData = ar.userData ∧
    (h.HandleAuthorize ar w).ar.client = ar.client ∧
    (h.HandleAuthorize ar w).ar.scope = ar.scope ∧
    (h.HandleAuthorize ar w).ar.expiration = ar.expiration ∧
    (h.HandleAuthorize ar w).ar.redirectUri = ar.redirectUri ∧
    (h.HandleAuthorize ar w).ar.httpRequest = ar.httpRequest ∧
    grantOf (h.HandleAuthorize ar w).ar = grantOf ar := by
  refine ⟨rfl, ?_⟩
  cases hA : ar.authorized with
  | false => simp [GrantCheck.HandleAuthorize, hA, grantOf]
  | true =>
    cases hu : ar.userData with
    | invalid => simp [GrantCheck.HandleAuthorize, hA, hu, grantOf]
    | info u =>
      cases hc : h.check u (grantOf ar) with
      | mk b oe =>
        simp only [grantOf] at hc
        cases oe with
        | some e => simp [GrantCheck.HandleAuthorize, hA, hu, grantOf, hc]
        | none =>
          cases b with
          | true => simp [GrantCheck.HandleAuthorize, hA, hu, grantOf, hc]
          | false =>
            cases hh : (h.handler u (grantOf ar) w ar.httpRequest).authorized <;>
              · simp only [grantOf] at hh
                simp [GrantCheck.HandleAuthorize, hA, hu, grantOf, hc, hh]

/-- C4: PerClient dispatch.  For a recognized OAuth client record, the
resolved method is the client method, or the configured default when the
client method is empty; `auto` delegates to the Auto sub-handler, `prompt`
to the caller-supplied prompt sub-handler, `deny` to the Empty (deny)
sub-handler regardless of the default, and any other resolved value yields
`(false, false, err)` where the error message contains the literal method
value as a substring. -/
theorem perClientGrant_dispatch (prompt : GrantHandler) (dm : String)
    (u : UserInfo) (grant : Grant) (w : Response) (req : HttpRequest)
    (c : OAuthClient) (method : String)
    (hc : grant.client.userData = ClientUserData.oauthClient c)
    (hm : method = if c.grantMethod.length = 0 then dm else c.grantMethod) :
    (method = GrantHandlerAuto →
      (NewPerClientGrant prompt dm).GrantNeeded u grant w req =
        autoGrant.GrantNeeded u grant w req) ∧
    (method = GrantHandlerPrompt →
      (NewPerClientGrant prompt dm).GrantNeeded u grant w req =
        prompt u grant w req) ∧
    (method = GrantHandlerDeny →
      (NewPerClientGrant prompt dm).GrantNeeded u grant w req =
        emptyGrant.GrantNeeded u grant w req) ∧
    (method ≠ GrantHandlerAuto → method ≠ GrantHandlerPrompt →
      method ≠ GrantHandlerDeny →
      (NewPerClientGrant prompt dm).GrantNeeded u grant w req =
        ⟨false, false, some ⟨unrecognizedMethodMsg method⟩, w⟩ ∧
      List.IsInfix method.toList (unrecognizedMethodMsg method).toList) := by
  subst hm
  refine ⟨?_, ?_, ?_, ?_⟩
  · intro h1
    simp [perClientGrant.GrantNeeded, NewPerClientGrant, hc, h1]
  · intro h1
    simp [perClientGrant.GrantNeeded, NewPerClientGrant, hc, h1,
      GrantHandlerAuto, GrantHandlerPrompt]
  · intro h1
    simp [perClientGrant.GrantNeeded, NewPerClientGrant, hc, h1,
      GrantHandlerAuto, GrantHandlerPrompt, GrantHandlerDeny]
  · intro h1 h2 h3
    refine ⟨?_, ?_⟩
    · simp [perClientGrant.GrantNeeded, NewPerClientGrant, hc, h1, h2, h3]
    · exact ⟨("OAuth client grant method \"").toList, ("\" unrecognized").toList,
        by simp [unrecognizedMethodMsg]⟩

/-- A grant whose client record carries an empty grant method. -/
def exGrant : Grant :=
  ⟨⟨"abc", ClientUserData.oauthClient ⟨""⟩⟩, "read write", 3600,
   "https://app.example/cb"⟩

/-- Witness for C4: empty client method with default `prompt` delegates to
the prompt sub-handler. -/
theorem perClientGrant_dispatch_witness :
    (NewPerClientGrant autoGrant.GrantNeeded GrantHandlerPrompt).GrantNeeded
        exUser exGrant [] exReq =
      autoGrant.GrantNeeded exUser exGrant [] exReq :=
  (perClientGrant_dispatch autoGrant.GrantNeeded GrantHandlerPrompt exUser
      exGrant [] exReq ⟨""⟩ GrantHandlerPrompt rfl rfl).2.1 rfl

/-- C5: the Redirect variant.  When the configured base URL parses, the
handler appends exactly the four-parameter query (`client_id`,
`redirect_uri`, `scopes`, `then` in the sorted order `Encode` emits) to the
base URL, writes a 302 redirect to that URL on the response writer, and
returns `(false, true, nil)`; when parsing fails it returns `(false, false,
err)` and writes nothing. -/
theorem redirectGrant_behavior (url : String) (u : UserInfo) (grant : Grant)
    (w : Response) (req : HttpRequest) :
    (∀ b, urlParse url = Except.ok b →
      redirectGrant.GrantNeeded url u grant w req =
        ⟨false, true, none,
         w ++ [HttpWrite.redirect 302
           (b ++ "?" ++ encodeGrantQuery req.url grant.client.id grant.scope
              grant.redirectURI)]⟩) ∧
    (∀ e, urlParse url = Except.error e →
      redirectGrant.GrantNeeded url u grant w req =
        ⟨false, false, some e, w⟩) := by
  constructor <;>
    · intro x hx
      simp [redirectGrant.GrantNeeded, hx]

/-- Witness for C5 at a concrete parsable base URL. -/
theorem redirectGrant_behavior_witness :
    redirectGrant.GrantNeeded "https://example.com/consent" exUser exGrant []
        exReq =
      ⟨false, true, none,
       [HttpWrite.redirect 302 ("https://example.com/consent" ++ "?" ++
         encodeGrantQuery exReq.url exGrant.client.id exGrant.scope
           exGrant.redirectURI)]⟩ :=
  (redirectGrant_behavior "https://example.com/consent" exUser exGrant []
      exReq).1 "https://example.com/consent" rfl

/-- C10: when the client grant method and the configured default are both
empty, PerClient dispatch falls through to the unrecognized-method branch:
no sub-handler runs, nothing is written, and the result is `(false, false,
err)` with the error message quoting the empty string. -/
theorem perClientGrant_empty_default (prompt : GrantHandler) (u : UserInfo)
    (grant : Grant) (w : Response) (req : HttpRequest) (c : OAuthClient)
    (hc : grant.client.userData = ClientUserData.oauthClient c)
    (hm : c.grantMethod = "") :
    (NewPerClientGrant prompt "").GrantNeeded u grant w req =
      ⟨false, false, some ⟨unrecognizedMethodMsg ""⟩, w⟩ ∧
    unrecognizedMethodMsg "" = "OAuth client grant method \"\" unrecognized" := by
  constructor
  · simp [perClientGrant.GrantNeeded, NewPerClientGrant, hc, hm,
      GrantHandlerAuto, GrantHandlerPrompt, GrantHandlerDeny]
  · rfl

/-- Witness for C10 at a concrete client with empty grant method. -/
theorem perClientGrant_empty_default_witness :
    (NewPerClientGrant autoGrant.GrantNeeded "").GrantNeeded exUser exGrant []
        exReq =
      ⟨false, false, some ⟨unrecognizedMethodMsg ""⟩, []⟩ ∧
    unrecognizedMethodMsg "" = "OAuth client grant method \"\" unrecognized" :=
  perClientGrant_empty_default autoGrant.GrantNeeded exUser exGrant [] exReq
    ⟨""⟩ rfl rfl

end Origin
